import Mathlib

/-!
Shallow embedding of `src/zwe.py`, the TE internet-usage monitor: a polling client
that authenticates a subscriber account, periodically queries the remaining data
allowance, updates Prometheus-style gauges/counters, and optionally pipes a message
to an external notifier.

Machine numbers from the JSON payloads are modelled as exact rationals; Python's
two-decimal `round` is modelled as round-half-to-even over `ℚ`.  Fallible calls
return `Except`; the mutable fields of the `TEMonitor` instance together with the
module-level metrics are gathered into one explicit state record, and the observable
actions of the poll loop are reified as an event list.
-/

attribute [local semireducible] Rat.mul Rat.add Rat.sub Rat.inv Rat.ofScientific

namespace Zwe

/-- Round a rational to the nearest integer, ties to even: the rounding mode of
CPython's builtin `round`, modelled over exact rationals. -/
def roundHalfEven (q : ℚ) : ℤ :=
  if q - Rat.floor q < 1/2 then Rat.floor q
  else if 1/2 < q - Rat.floor q then Rat.floor q + 1
  else if Rat.floor q % 2 = 0 then Rat.floor q else Rat.floor q + 1

/-- Python `round(x, 2)` (used at `zwe.py` line 160): two-decimal rounding. -/
def round2 (q : ℚ) : ℚ := (roundHalfEven (q * 100) : ℚ) / 100

theorem ratFloor_eq_intFloor (q : ℚ) : Rat.floor q = ⌊q⌋ := rfl

theorem roundHalfEven_nonneg (q : ℚ) (h : 0 ≤ q) : 0 ≤ roundHalfEven q := by
  have hf : (0 : ℤ) ≤ ⌊q⌋ := Int.floor_nonneg.mpr h
  unfold roundHalfEven
  rw [ratFloor_eq_intFloor]
  split
  · exact hf
  · split
    · omega
    · split <;> omega

theorem roundHalfEven_le (q : ℚ) (B : ℤ) (h : q ≤ B) : roundHalfEven q ≤ B := by
  have hfB : ⌊q⌋ ≤ B := by
    have h2 : ⌊q⌋ ≤ ⌊(B : ℚ)⌋ := Int.floor_le_floor h
    simpa using h2
  have hstep : ¬ (q - ⌊q⌋ < 1/2) → ⌊q⌋ + 1 ≤ B := by
    intro h1
    have h4 : (1:ℚ)/2 ≤ q - ⌊q⌋ := le_of_not_lt h1
    have h5 : (⌊q⌋ : ℚ) < (B : ℚ) := by
      have : (⌊q⌋ : ℚ) < q := by linarith
      exact lt_of_lt_of_le this h
    have h6 : ⌊q⌋ < B := by exact_mod_cast h5
    omega
  unfold roundHalfEven
  rw [ratFloor_eq_intFloor]
  split
  · exact hfB
  · split
    · exact hstep (by assumption)
    · split
      · exact hfB
      · exact hstep (by assumption)

theorem roundHalfEven_intCast (n : ℤ) : roundHalfEven (n : ℚ) = n := by
  unfold roundHalfEven
  rw [ratFloor_eq_intFloor, Int.floor_intCast]
  have h0 : (n : ℚ) - n = 0 := by ring
  rw [h0, if_pos (by norm_num : (0:ℚ) < 1/2)]

theorem round2_nonneg (q : ℚ) (h : 0 ≤ q) : 0 ≤ round2 q := by
  unfold round2
  have h1 : 0 ≤ roundHalfEven (q * 100) := roundHalfEven_nonneg _ (by linarith)
  exact div_nonneg (by exact_mod_cast h1) (by norm_num)

theorem round2_le_100 (q : ℚ) (h : q ≤ 100) : round2 q ≤ 100 := by
  unfold round2
  have h1 : roundHalfEven (q * 100) ≤ (10000 : ℤ) :=
    roundHalfEven_le _ _ (by push_cast; linarith)
  rw [div_le_iff₀ (by norm_num : (0:ℚ) < 100)]
  have h2 : (roundHalfEven (q * 100) : ℚ) ≤ (10000 : ℚ) := by exact_mod_cast h1
  linarith

theorem round2_round2 (q : ℚ) : round2 (round2 q) = round2 q := by
  unfold round2
  have h1 : ((roundHalfEven (q * 100) : ℚ) / 100) * 100 = (roundHalfEven (q * 100) : ℚ) := by
    field_simp
  rw [h1, roundHalfEven_intCast]

/-- Decimal rendering of a nonnegative count of hundredths, matching CPython's `repr`
of the float produced by `round(x, 2)` at these magnitudes: at least one fractional
digit, trailing zeros beyond the first dropped. -/
def hundredthsRepr (k : ℤ) : String :=
  let i := k / 100
  let f := k % 100
  if f = 0 then toString i ++ ".0"
  else if f % 10 = 0 then toString i ++ "." ++ toString (f / 10)
  else if f < 10 then toString i ++ ".0" ++ toString f
  else toString i ++ "." ++ toString f

/-- Rendering of the `used_percentage` float inside the message f-string at `zwe.py`
line 165.  The value is a whole number of hundredths by construction. -/
def pyFloatRepr (q : ℚ) : String :=
  let c := q * 100
  if c.den = 1 then hundredthsRepr c.num else toString q

/-- Rendering of `remain` inside the message f-string: a JSON integer prints with no
decimal point, a fractional JSON number like the float it parses to. -/
def pyNumRepr (q : ℚ) : String :=
  if q.den = 1 then toString q.num else pyFloatRepr q

/-- Message built at `zwe.py` line 165 from the derived percentage and the raw
`remain` field. -/
def usageMessage (usedPct remain : ℚ) : String :=
  pyFloatRepr usedPct ++ "%, " ++ pyNumRepr remain ++ " GB remaining."

/-- Parsed configuration: the `Config` dataclass (`zwe.py` lines 43-53).  `rate_limit`
is overwritten with the `--interval` argument in `main` (line 277) and is the number
of seconds slept between poll-loop iterations. -/
structure Config where
  login_url : String
  query_url : String
  headers : List (String × String)
  rate_limit : Nat
  metrics_port : Nat
  health_check_interval : Nat
  retry_attempts : Nat
  retry_delay : Nat
deriving DecidableEq

/-- Mutable fields of the `TEMonitor` instance together with the module-level
Prometheus metrics (`zwe.py` lines 38-41 and 76-84).  A gauge is `none` until first
written; `sessionOpen` records whether the aiohttp session exists and is open. -/
structure MonitorState where
  sessionOpen : Bool
  csrf_token : Option String
  subscriber_id : Option String
  is_healthy : Bool
  errorCounter : Nat
  queryCounter : Nat
  usageGauge : Option ℚ
  remainingGauge : Option ℚ
deriving DecidableEq

/-- State right after `TEMonitor.__init__` (`zwe.py` lines 76-84): no session, no
token, no subscriber id, liveness flag initially true, counters zero, gauges unset. -/
def initState : MonitorState :=
  { sessionOpen := false, csrf_token := none, subscriber_id := none, is_healthy := true,
    errorCounter := 0, queryCounter := 0, usageGauge := none, remainingGauge := none }

/-- Environment's answer to the login request issued by `authenticate`.  `failure`
covers a network error, a non-2xx status (`response.raise_for_status()`, line 114) and
an unparseable body; `success` carries the optional lookups `data['body']['token']`
and `data['body']['subscriber']['subscriberId']`, where `none` models a missing key
(its lookup raises `KeyError`). -/
inductive LoginResponse where
  | failure : LoginResponse
  | success (token : Option String) (subscriberId : Option String) : LoginResponse
deriving DecidableEq

/-- The distinct ways `TEMonitor.authenticate` can raise. -/
inductive AuthFailure where
  | transport : AuthFailure
  | missingToken : AuthFailure
  | missingSubscriberId : AuthFailure
deriving DecidableEq

/-- `TEMonitor.authenticate` (`zwe.py` lines 97-124).  The two assignments at lines
117-118 run in order: the token is stored first, then the subscriber id is looked up,
so a body carrying a token but no subscriber id updates `csrf_token` and then raises,
leaving `subscriber_id` at its previous value.  Every failure path bumps the error
counter (line 122) and re-raises. -/
def authenticate (st : MonitorState) (resp : LoginResponse) :
    Except AuthFailure Unit × MonitorState :=
  match resp with
  | .failure =>
    (Except.error AuthFailure.transport, { st with errorCounter := st.errorCounter + 1 })
  | .success token? subscriberId? =>
    match token? with
    | none =>
      (Except.error AuthFailure.missingToken, { st with errorCounter := st.errorCounter + 1 })
    | some tok =>
      match subscriberId? with
      | none =>
        (Except.error AuthFailure.missingSubscriberId,
          { st with csrf_token := some tok, errorCounter := st.errorCounter + 1 })
      | some sid =>
        (Except.ok (), { st with csrf_token := some tok, subscriber_id := some sid })

/-- One parsed usage line item, an element of `data['body']`.  `total?`/`remain?` are
`none` when the key is absent; `item.get` (lines 158-159) then supplies the defaults
1 and 0. -/
structure Item where
  total? : Option ℚ
  remain? : Option ℚ
deriving DecidableEq

/-- Parsed query response body.  `body?` is `none` when the `'body'` key is missing,
in which case the lookup `data['body']` at line 157 raises `KeyError`. -/
structure QueryData where
  body? : Option (List Item)
deriving DecidableEq

/-- Environment's answer to the usage query: `failure` covers a network error, a
non-2xx status and an unparseable body. -/
inductive QueryResponse where
  | failure : QueryResponse
  | success (d : QueryData) : QueryResponse
deriving DecidableEq

/-- `TEMonitor.query_data` (`zwe.py` lines 126-152).  On success the parsed JSON is
returned and the query counter bumped (line 146); on any failure the error counter is
bumped and the exception re-raised (lines 149-152).  The session fields are only read
(the token and subscriber id go into the request); the configured headers are copied
before being extended (line 130), so nothing in the monitor state is written besides
the counters. -/
def query_data (st : MonitorState) (resp : QueryResponse) :
    Except Unit QueryData × MonitorState :=
  match resp with
  | .failure => (Except.error (), { st with errorCounter := st.errorCounter + 1 })
  | .success d => (Except.ok d, { st with queryCounter := st.queryCounter + 1 })

/-- `item.get('total', 1)` (`zwe.py` line 158). -/
def itemTotal (it : Item) : ℚ := it.total?.getD 1

/-- `item.get('remain', 0)` (`zwe.py` line 159). -/
def itemRemain (it : Item) : ℚ := it.remain?.getD 0

/-- Derived percentage computed at `zwe.py` line 160:
`round(((total - remain) / total) * 100, 2)`. -/
def usedPercentage (total remain : ℚ) : ℚ := round2 ((total - remain) / total * 100)

/-- Observable actions of the client, in program order. -/
inductive Event where
  | queryCall : Event
  | authCall : Event
  | notifyCall (message : String) : Event
  | sleepSeconds (n : Nat) : Event
  | sessionClose : Event
deriving DecidableEq

/-- Whether an event is an invocation of `send_notification`. -/
def isNotify : Event → Bool
  | .notifyCall _ => true
  | _ => false

/-- Whether an event is the inter-tick `asyncio.sleep`. -/
def isSleep : Event → Bool
  | .sleepSeconds _ => true
  | _ => false

/-- Whether an event is an outbound call (HTTP request or notifier invocation). -/
def isOutbound : Event → Bool
  | .queryCall => true
  | .authCall => true
  | .notifyCall _ => true
  | _ => false

/-- The `for` loop of `TEMonitor.process_data` (`zwe.py` lines 157-169) run over the
remaining items.  The `Bool` component is `true` when the loop finished and `false`
when an iteration raised — with numeric fields the only raising operation is the
division at line 160, which hits `ZeroDivisionError` exactly when the item carries an
explicit `total` of 0 — in which case the later items are never reached, and the
raising iteration writes no gauge and sends no notification.  `send_notification`
(lines 175-187) swallows its own errors, so each configured iteration contributes
exactly one notifier invocation. -/
def processItems (notifyConfigured : Bool) (st : MonitorState) :
    List Item → MonitorState × List Event × Bool
  | [] => (st, [], true)
  | it :: rest =>
    if itemTotal it = 0 then (st, [], false)
    else
      let up := usedPercentage (itemTotal it) (itemRemain it)
      let st1 := { st with usageGauge := some up, remainingGauge := some (itemRemain it) }
      let evs :=
        if notifyConfigured then [Event.notifyCall (usageMessage up (itemRemain it))] else []
      let r := processItems notifyConfigured st1 rest
      (r.1, evs ++ r.2.1, r.2.2)

/-- `TEMonitor.process_data` (`zwe.py` lines 154-173).  The whole body sits inside
`try`/`except Exception` whose handler only logs and bumps the error counter (lines
171-173), so no exception ever propagates to the caller. -/
def process_data (notifyConfigured : Bool) (st : MonitorState) (d : QueryData) :
    MonitorState × List Event :=
  match d.body? with
  | none => ({ st with errorCounter := st.errorCounter + 1 }, [])
  | some items =>
    let r := processItems notifyConfigured st items
    if r.2.2 then (r.1, r.2.1)
    else ({ r.1 with errorCounter := r.1.errorCounter + 1 }, r.2.1)

/-- `TEMonitor.health_check` (`zwe.py` lines 189-197): run the usage query once more;
on success set the liveness flag true, on failure set it false and swallow the
exception.  This is the only place `is_healthy` is ever written after `__init__`.
The `last_health_check` timestamp is abstracted into `TickEnv.healthDue`. -/
def health_check (st : MonitorState) (resp : QueryResponse) : MonitorState × List Event :=
  match query_data st resp with
  | (Except.ok _, st1) => ({ st1 with is_healthy := true }, [Event.queryCall])
  | (Except.error _, st1) => ({ st1 with is_healthy := false }, [Event.queryCall])

/-- Inputs the environment supplies to one iteration of the `while True` loop in
`TEMonitor.run`: the upstream responses, whether the health-check interval has
elapsed (abstracting the `datetime` comparison at line 211), and whether the
`TE_NOTIFY_ID` environment variable is set (line 168). -/
structure TickEnv where
  queryResp : QueryResponse
  healthDue : Bool
  healthResp : QueryResponse
  authResp : LoginResponse
  notifyConfigured : Bool
deriving DecidableEq

/-- One iteration of the `while True` loop of `TEMonitor.run` (`zwe.py` lines
205-219), producing the events of the iteration in program order and `some` next
state — or `none` when the iteration terminates the loop: the only exception the
loop does not absorb is a failing `self.authenticate()` inside the `except` handler
(line 217), which propagates past the inner `try` and out of the loop (the outer
`try` at line 201 only catches `asyncio.CancelledError`). -/
def tick (cfg : Config) (st : MonitorState) (env : TickEnv) :
    List Event × Option MonitorState :=
  match query_data st env.queryResp with
  | (Except.ok d, st1) =>
    let pr := process_data env.notifyConfigured st1 d
    let hr := if env.healthDue then health_check pr.1 env.healthResp else (pr.1, [])
    (Event.queryCall :: (pr.2 ++ hr.2 ++ [Event.sleepSeconds cfg.rate_limit]), some hr.1)
  | (Except.error _, st1) =>
    if st1.is_healthy then
      ([Event.queryCall, Event.sleepSeconds cfg.rate_limit], some st1)
    else
      match authenticate st1 env.authResp with
      | (Except.ok _, st2) =>
        ([Event.queryCall, Event.authCall, Event.sleepSeconds cfg.rate_limit], some st2)
      | (Except.error _, _) => ([Event.queryCall, Event.authCall], none)

/-- `TEMonitor.cleanup` (`zwe.py` lines 91-94): close the HTTP session if one exists. -/
def cleanup (st : MonitorState) : MonitorState × List Event :=
  if st.sessionOpen then ({ st with sessionOpen := false }, [Event.sessionClose])
  else (st, [])

/-- Shutdown path of `TEMonitor.run` (`zwe.py` lines 221-224): a cancellation raised
at the inter-tick sleep is caught as `asyncio.CancelledError` and logged, then the
`finally` block runs `cleanup`.  Nothing after that issues an outbound call. -/
def shutdown (st : MonitorState) : MonitorState × List Event := cleanup st

/-- Exit code passed to `sys.exit` by `handle_interrupt` (`zwe.py` lines 226-229),
the SIGINT handler installed in `main` (line 280). -/
def interruptExitCode : Nat := 0

/-- `TEMonitor.initialize` (`zwe.py` lines 86-89): open the session, then
authenticate.  An authentication failure propagates to `main` (line 284), which has
no handler, so the process aborts before the poll loop ever starts. -/
def initMonitor (st : MonitorState) (resp : LoginResponse) :
    Except AuthFailure MonitorState :=
  match authenticate { st with sessionOpen := true } resp with
  | (Except.ok _, st1) => Except.ok st1
  | (Except.error e, _) => Except.error e

/-- Whether a login response makes `authenticate` raise. -/
def authFails (resp : LoginResponse) : Bool :=
  match resp with
  | .failure => true
  | .success token? subscriberId? => token?.isNone || subscriberId?.isNone

/-- Items of a response body that the processing loop completes: the longest prefix
not containing an item with an explicit `total` of 0 (the first such item raises
`ZeroDivisionError` and everything after it is skipped). -/
def processedRecords (d : QueryData) : List Item :=
  (d.body?.getD []).takeWhile fun it => decide (itemTotal it ≠ 0)

theorem notify_not_sleep (e : Event) (h : isNotify e = true) : isSleep e = false := by
  cases e <;> simp [isNotify, isSleep] at h ⊢

theorem notify_not_auth (e : Event) (h : isNotify e = true) : e ≠ Event.authCall := by
  cases e <;> simp [isNotify] at h ⊢

theorem processItems_events_notify (notify : Bool) (st : MonitorState) (items : List Item) :
    ∀ e ∈ (processItems notify st items).2.1, isNotify e = true := by
  induction items generalizing st with
  | nil => intro e he; simp [processItems] at he
  | cons it rest ih =>
    intro e he
    by_cases h : itemTotal it = 0
    · simp [processItems, h] at he
    · simp only [processItems, if_neg h, List.mem_append] at he
      rcases he with he | he
      · cases notify with
        | false => simp at he
        | true =>
          simp at he
          subst he
          rfl
      · exact ih _ e he

theorem processItems_notify_count (notify : Bool) (st : MonitorState) (items : List Item) :
    ((processItems notify st items).2.1.countP isNotify) =
      if notify then (items.takeWhile fun it => decide (itemTotal it ≠ 0)).length else 0 := by
  induction items generalizing st with
  | nil => cases notify <;> simp [processItems]
  | cons it rest ih =>
    by_cases h : itemTotal it = 0
    · cases notify <;> simp [processItems, h, List.takeWhile_cons]
    · cases notify with
      | false => simpa [processItems, h, List.takeWhile_cons] using ih _
      | true =>
        simp [processItems, h, List.takeWhile_cons, ih, isNotify, Nat.add_comm]

theorem processItems_state_front (notify : Bool) (st : MonitorState) (items : List Item) :
    (processItems notify st items).1 =
      (processItems notify st (items.takeWhile fun it => decide (itemTotal it ≠ 0))).1 := by
  induction items generalizing st with
  | nil => rfl
  | cons it rest ih =>
    by_cases h : itemTotal it = 0
    · simp [processItems, h, List.takeWhile_cons]
    · simp [processItems, h, List.takeWhile_cons, ih]

theorem processItems_events_front (notify : Bool) (st : MonitorState) (items : List Item) :
    (processItems notify st items).2.1 =
      (processItems notify st (items.takeWhile fun it => decide (itemTotal it ≠ 0))).2.1 := by
  induction items generalizing st with
  | nil => rfl
  | cons it rest ih =>
    by_cases h : itemTotal it = 0
    · simp [processItems, h, List.takeWhile_cons]
    · simp [processItems, h, List.takeWhile_cons, ih]

theorem processItems_completed (notify : Bool) (st : MonitorState) (items : List Item) :
    (processItems notify st items).2.2 = (items.all fun it => decide (itemTotal it ≠ 0)) := by
  induction items generalizing st with
  | nil => simp [processItems]
  | cons it rest ih =>
    by_cases h : itemTotal it = 0
    · simp [processItems, h]
    · simp [processItems, h, ih]

theorem process_data_events_notify (notify : Bool) (st : MonitorState) (d : QueryData) :
    ∀ e ∈ (process_data notify st d).2, isNotify e = true := by
  rcases d with ⟨body?⟩
  cases body? with
  | none => intro e he; simp [process_data] at he
  | some items =>
    intro e he
    by_cases hc : (processItems notify st items).2.2 = true <;>
      simp only [process_data, hc, Bool.not_eq_true, ite_true, ite_false] at he <;>
      exact processItems_events_notify notify st items e he

theorem health_check_events (st : MonitorState) (r : QueryResponse) :
    (health_check st r).2 = [Event.queryCall] := by
  cases r <;> rfl

/-- Login URL, query URL and the remaining `config.yaml` fields of a concrete run,
with the poll interval `rate_limit` set to 60 seconds. -/
def cfg0 : Config :=
  { login_url := "https://my.te.eg/api/login", query_url := "https://my.te.eg/api/usage",
    headers := [], rate_limit := 60, metrics_port := 8000, health_check_interval := 300,
    retry_attempts := 3, retry_delay := 5 }

/-- Tick inputs in which the usage query fails and any re-authentication would also
fail; the health-check interval has not elapsed and no notifier is configured. -/
def envQueryFail : TickEnv :=
  { queryResp := QueryResponse.failure, healthDue := false,
    healthResp := QueryResponse.failure, authResp := LoginResponse.failure,
    notifyConfigured := false }

/-- A healthy-looking line item: 100 GB total, 25 GB remaining. -/
def itemA : Item := { total? := some 100, remain? := some 25 }

/-- A line item with an explicit `total` of 0. -/
def zeroTotalItem : Item := { total? := some 0, remain? := some 0 }

/-- A response body with a zero-total item between two well-formed ones. -/
def dMix : QueryData := { body? := some [itemA, zeroTotalItem, itemA] }

/-- Tick inputs in which the usage query succeeds with `dMix` and a notifier is
configured. -/
def envOkBody : TickEnv :=
  { queryResp := QueryResponse.success dMix, healthDue := false,
    healthResp := QueryResponse.failure, authResp := LoginResponse.failure,
    notifyConfigured := true }

/-- A monitor state whose liveness flag is false, as left by a failed health check. -/
def stUnhealthy : MonitorState := { initState with is_healthy := false }

/-- Claim C7: the usage query never mutates the Session — whether the call succeeds
or fails, `query_data` leaves the session token, the subscriber id and the session
handle exactly as they were before the call. -/
theorem c7_query_preserves_session (st : MonitorState) (resp : QueryResponse) :
    ((query_data st resp).2.csrf_token = st.csrf_token) ∧
    ((query_data st resp).2.subscriber_id = st.subscriber_id) ∧
    ((query_data st resp).2.sessionOpen = st.sessionOpen) := by
  cases resp <;> exact ⟨rfl, rfl, rfl⟩

/-- Claim C2 counterexample: a login response whose body carries `body.token` but no
`body.subscriber.subscriberId` makes authentication fail, yet leaves the pair
half-populated — starting from the fresh state, the stored token is present while
the subscriber id is absent, so the session is neither fully valid nor absent. -/
theorem c2_counterexample :
    (authenticate initState (LoginResponse.success (some "tok") none)).1 =
        Except.error AuthFailure.missingSubscriberId ∧
    (authenticate initState (LoginResponse.success (some "tok") none)).2.csrf_token =
        some "tok" ∧
    (authenticate initState (LoginResponse.success (some "tok") none)).2.subscriber_id =
        none :=
  ⟨rfl, rfl, rfl⟩

/-- Claim C2 (amended): a failed authentication due to a network error, a non-2xx
status or a body missing `body.token` leaves both session fields untouched, and a
successful one sets both to the response's values; but a body carrying `body.token`
while missing `body.subscriber.subscriberId` updates the stored token and not the
subscriber id, so this one failure mode does leave a half-populated pair visible to
callers. -/
theorem c2_auth_session_population (st : MonitorState) :
    ((authenticate st LoginResponse.failure).2.csrf_token = st.csrf_token ∧
      (authenticate st LoginResponse.failure).2.subscriber_id = st.subscriber_id) ∧
    (∀ sid?, (authenticate st (LoginResponse.success none sid?)).2.csrf_token = st.csrf_token ∧
      (authenticate st (LoginResponse.success none sid?)).2.subscriber_id = st.subscriber_id) ∧
    (∀ tok, (authenticate st (LoginResponse.success (some tok) none)).1 =
        Except.error AuthFailure.missingSubscriberId ∧
      (authenticate st (LoginResponse.success (some tok) none)).2.csrf_token = some tok ∧
      (authenticate st (LoginResponse.success (some tok) none)).2.subscriber_id =
        st.subscriber_id) ∧
    (∀ tok sid, (authenticate st (LoginResponse.success (some tok) (some sid))).1 =
        Except.ok () ∧
      (authenticate st (LoginResponse.success (some tok) (some sid))).2.csrf_token = some tok ∧
      (authenticate st (LoginResponse.success (some tok) (some sid))).2.subscriber_id =
        some sid) :=
  ⟨⟨rfl, rfl⟩, fun _ => ⟨rfl, rfl⟩, fun _ => ⟨rfl, rfl, rfl⟩, fun _ _ => ⟨rfl, rfl, rfl⟩⟩

/-- Claim C5: for a record with `0 ≤ remaining ≤ total` and `total > 0`, the derived
percentage is `round((total-remaining)/total*100, 2)`, lies within `[0, 100]`, is
idempotent under the same rounding, and the Sink's message has the shape
`"<usedPercentage>%, <remaining> GB remaining."`; in particular `total = 100`,
`remaining = 25` yields `75.0` and the message `"75.0%, 25 GB remaining."`. -/
theorem c5_used_percentage (total remain : ℚ) (h0 : 0 ≤ remain) (h1 : remain ≤ total)
    (h2 : 0 < total) :
    usedPercentage total remain = round2 ((total - remain) / total * 100) ∧
    0 ≤ usedPercentage total remain ∧
    usedPercentage total remain ≤ 100 ∧
    round2 (usedPercentage total remain) = usedPercentage total remain ∧
    usageMessage (usedPercentage total remain) remain =
      pyFloatRepr (usedPercentage total remain) ++ "%, " ++ pyNumRepr remain ++
        " GB remaining." ∧
    usedPercentage 100 25 = 75 ∧
    usageMessage (usedPercentage 100 25) 25 = "75.0%, 25 GB remaining." := by
  have hx0 : 0 ≤ (total - remain) / total * 100 := by
    have hdiv : 0 ≤ (total - remain) / total := div_nonneg (by linarith) (le_of_lt h2)
    linarith
  have hx1 : (total - remain) / total * 100 ≤ 100 := by
    have hdiv : (total - remain) / total ≤ 1 := by
      rw [div_le_one h2]; linarith
    linarith
  refine ⟨rfl, round2_nonneg _ hx0, round2_le_100 _ hx1, round2_round2 _, rfl, ?_, ?_⟩
  · decide
  · decide

/-- Claim C6: the Sink makes exactly one notification call per record that the
processing loop completes when a notifier destination is configured, and zero calls
when none is configured — for every response body, including bodies that are
malformed or that abort processing partway. -/
theorem c6_notification_count (notify : Bool) (st : MonitorState) (d : QueryData) :
    ((process_data notify st d).2.countP isNotify) =
      if notify then (processedRecords d).length else 0 := by
  rcases d with ⟨body?⟩
  cases body? with
  | none => cases notify <;> simp [process_data, processedRecords]
  | some items =>
    have h := processItems_notify_count notify st items
    by_cases hc : (processItems notify st items).2.2 = true <;>
      simp only [process_data, hc, Bool.not_eq_true, ite_true, ite_false] <;>
      simpa [processedRecords] using h

/-- Claim C3 counterexample: a record with an explicit `total = 0` makes the division
at line 160 raise `ZeroDivisionError`; `process_data`'s handler catches it and bumps
the error counter, but no `usedPercentage` is computed for the record — the usage
gauge is left unset rather than set to 0 or any sentinel, and no notification goes
out even with a notifier configured. -/
theorem c3_counterexample :
    process_data true initState { body? := some [zeroTotalItem] } =
      ({ initState with errorCounter := 1 }, []) ∧
    (process_data true initState { body? := some [zeroTotalItem] }).1.usageGauge ≠
      some 0 := by
  decide

/-- Claim C3 (amended): a record with `total = 0` raises inside the processing loop;
`process_data` catches the error so nothing propagates to its caller, but no
percentage is computed and no sentinel written — the gauges keep their previous
values, the error counter is incremented once, no notification is sent for the
record, and every record after it is skipped. -/
theorem c3_zero_total_caught (notify : Bool) (st : MonitorState) (it : Item)
    (rest : List Item) (h : itemTotal it = 0) :
    processItems notify st (it :: rest) = (st, [], false) ∧
    process_data notify st { body? := some (it :: rest) } =
      ({ st with errorCounter := st.errorCounter + 1 }, []) ∧
    (process_data notify st { body? := some (it :: rest) }).1.usageGauge = st.usageGauge ∧
    (process_data notify st { body? := some (it :: rest) }).1.remainingGauge =
      st.remainingGauge := by
  have h1 : processItems notify st (it :: rest) = (st, [], false) := by
    simp [processItems, h]
  refine ⟨h1, ?_, ?_, ?_⟩ <;> simp [process_data, h1]

/-- Claim C1 counterexample: a failing query in the main loop neither marks the
liveness flag false nor causes a re-authentication before the next query — from the
fresh (healthy) state the failing tick keeps `is_healthy = true` and makes no
authenticator call, and the next tick issues the query again, still with no
authenticator call before it. -/
theorem c1_counterexample :
    tick cfg0 initState envQueryFail =
      ([Event.queryCall, Event.sleepSeconds 60], some { initState with errorCounter := 1 }) ∧
    ({ initState with errorCounter := 1 } : MonitorState).is_healthy = true ∧
    Event.authCall ∉ (tick cfg0 initState envQueryFail).1 ∧
    Event.authCall ∉ (tick cfg0 { initState with errorCounter := 1 } envQueryFail).1 := by
  decide

/-- Claim C1 (amended): on a main-loop query failure the exception is caught and
logged; the liveness flag keeps its previous value — the only writes to it happen in
the periodic health check, true after a successful probe and false after a failed one
— and an authenticator call happens inside the failing tick itself (before that
tick's closing sleep), exactly when the flag was already false from an earlier failed
health check; with the flag still true no authentication is attempted at all. -/
theorem c1_failure_liveness_reauth (cfg : Config) (st : MonitorState) (env : TickEnv)
    (hq : env.queryResp = QueryResponse.failure) :
    (st.is_healthy = true →
      tick cfg st env =
        ([Event.queryCall, Event.sleepSeconds cfg.rate_limit],
          some { st with errorCounter := st.errorCounter + 1 }) ∧
      Event.authCall ∉ (tick cfg st env).1) ∧
    (st.is_healthy = false → Event.authCall ∈ (tick cfg st env).1) ∧
    (∀ st', (tick cfg st env).2 = some st' → st'.is_healthy = st.is_healthy) ∧
    (∀ s d, (health_check s (QueryResponse.success d)).1.is_healthy = true) ∧
    (∀ s, (health_check s QueryResponse.failure).1.is_healthy = false) := by
  rcases env with ⟨qr, hdue, hresp, aresp, nc⟩
  simp only at hq
  subst hq
  refine ⟨?_, ?_, ?_, ?_, ?_⟩
  · intro hh
    constructor <;> simp [tick, query_data, hh]
  · intro hh
    rcases aresp with _ | ⟨tok?, sid?⟩ <;>
      [skip; rcases tok? with _ | tok] <;>
      [skip; skip; rcases sid? with _ | sid] <;>
      simp [tick, query_data, authenticate, hh]
  · intro st' hst
    by_cases hh : st.is_healthy
    · simp [tick, query_data, hh] at hst
      subst hst
      simp [hh]
    · simp only [Bool.not_eq_true] at hh
      rcases aresp with _ | ⟨tok?, sid?⟩ <;>
        [skip; rcases tok? with _ | tok] <;>
        [skip; skip; rcases sid? with _ | sid] <;>
        simp [tick, query_data, authenticate, hh] at hst <;>
        subst hst <;>
        simp [hh]
  · intro s d
    simp [health_check, query_data]
  · intro s
    simp [health_check, query_data]

/-- Claim C4 counterexample: with the liveness flag already false, a tick whose query
fails and whose re-authentication also fails terminates the poll loop — the
authentication exception propagates past the inner handler, and the outer `try`
catches only cancellation — instead of being caught at the tick boundary and letting
the loop continue to the next scheduled tick. -/
theorem c4_counterexample :
    (tick cfg0 stUnhealthy envQueryFail).2 = none := by
  decide

/-- Claim C4 (amended): an authenticator failure at startup aborts the process — the
exception re-raises out of the monitor's initialisation, which `main` does not guard
— and a failing re-authentication mid-run equally terminates the poll loop: the
exception escapes the tick rather than being caught, logged and deferred to the next
scheduled tick. -/
theorem c4_auth_failure_fatal (st : MonitorState) (r : LoginResponse) (cfg : Config)
    (env : TickEnv) (hr : authFails r = true) (hq : env.queryResp = QueryResponse.failure)
    (hh : st.is_healthy = false) (ha : authFails env.authResp = true) :
    (∃ e, initMonitor st r = Except.error e) ∧ (tick cfg st env).2 = none := by
  constructor
  · rcases r with _ | ⟨tok?, sid?⟩
    · exact ⟨AuthFailure.transport, rfl⟩
    · rcases tok? with _ | tok
      · exact ⟨AuthFailure.missingToken, rfl⟩
      · rcases sid? with _ | sid
        · exact ⟨AuthFailure.missingSubscriberId, rfl⟩
        · simp [authFails] at hr
  · rcases env with ⟨qr, hdue, hresp, aresp, nc⟩
    simp only at hq ha
    subst hq
    rcases aresp with _ | ⟨tok?, sid?⟩
    · simp [tick, query_data, authenticate, hh]
    · rcases tok? with _ | tok
      · simp [tick, query_data, authenticate, hh]
      · rcases sid? with _ | sid
        · simp [tick, query_data, authenticate, hh]
        · simp [authFails] at ha

/-- Claim C4 witness: the amended claim evaluated on a concrete run — a transport
failure at startup aborts, and a tick in the unhealthy state whose query and
re-authentication both fail ends the loop. -/
theorem c4_auth_failure_fatal_witness :
    (∃ e, initMonitor stUnhealthy LoginResponse.failure = Except.error e) ∧
    (tick cfg0 stUnhealthy envQueryFail).2 = none :=
  c4_auth_failure_fatal stUnhealthy LoginResponse.failure cfg0 envQueryFail rfl rfl rfl rfl

/-- Claim C1 witness: the amended claim evaluated on a concrete run — from the fresh
healthy state a failing query produces exactly a query call and the 60-second sleep,
with no authenticator call. -/
theorem c1_failure_liveness_reauth_witness :
    tick cfg0 initState envQueryFail =
      ([Event.queryCall, Event.sleepSeconds 60], some { initState with errorCounter := 1 }) ∧
    Event.authCall ∉ (tick cfg0 initState envQueryFail).1 :=
  (c1_failure_liveness_reauth cfg0 initState envQueryFail rfl).1 rfl

/-- Claim C3 witness: the amended claim evaluated on a concrete zero-total record. -/
theorem c3_zero_total_caught_witness :
    processItems true initState [zeroTotalItem] = (initState, [], false) ∧
    process_data true initState { body? := some [zeroTotalItem] } =
      ({ initState with errorCounter := 1 }, []) ∧
    (process_data true initState { body? := some [zeroTotalItem] }).1.usageGauge =
      initState.usageGauge ∧
    (process_data true initState { body? := some [zeroTotalItem] }).1.remainingGauge =
      initState.remainingGauge :=
  c3_zero_total_caught true initState zeroTotalItem [] rfl

/-- Claim C5 witness: the bounds, idempotence and message shape at
`total = 100`, `remaining = 25`. -/
theorem c5_used_percentage_witness :
    usedPercentage 100 25 = round2 ((100 - 25) / 100 * 100) ∧
    0 ≤ usedPercentage 100 25 ∧
    usedPercentage 100 25 ≤ 100 ∧
    round2 (usedPercentage 100 25) = usedPercentage 100 25 ∧
    usageMessage (usedPercentage 100 25) 25 =
      pyFloatRepr (usedPercentage 100 25) ++ "%, " ++ pyNumRepr 25 ++ " GB remaining." ∧
    usedPercentage 100 25 = 75 ∧
    usageMessage (usedPercentage 100 25) 25 = "75.0%, 25 GB remaining." :=
  c5_used_percentage 100 25 (by norm_num) (by norm_num) (by norm_num)

theorem filter_isSleep_no_notify (l : List Event) (h : ∀ e ∈ l, isNotify e = true) :
    l.filter isSleep = [] :=
  List.filter_eq_nil_iff.mpr fun e he => by simp [notify_not_sleep e (h e he)]

theorem getLast?_cons_append3 {α : Type} (x s : α) (a b : List α) :
    (x :: (a ++ b ++ [s])).getLast? = some s := by
  rw [← List.cons_append, List.getLast?_concat]

theorem authCall_not_mem_success_events (l hc : List Event)
    (hl : ∀ e ∈ l, isNotify e = true) (hhc : hc = [] ∨ hc = [Event.queryCall]) (n : Nat) :
    Event.authCall ∉ Event.queryCall :: (l ++ hc ++ [Event.sleepSeconds n]) := by
  intro hmem
  rcases List.mem_cons.mp hmem with h1 | h1
  · simp at h1
  · rcases List.mem_append.mp h1 with h2 | h2
    · rcases List.mem_append.mp h2 with h3 | h3
      · exact notify_not_auth _ (hl _ h3) rfl
      · rcases hhc with rfl | rfl
        · simp at h3
        · simp at h3
    · simp at h2

/-- Claim C8: whenever an iteration of the poll loop continues to a next tick, its
event trace contains exactly one sleep — the closing `asyncio.sleep` of exactly the
configured `rate_limit` seconds — and ends with it, on success and on failure alike:
a failed query never shortens or skips the pause, and nothing the tick does before
the sleep adds another one.  (The one tick with no closing sleep is the one that
terminates the loop, after which there is no next tick.) -/
theorem c8_fixed_sleep (cfg : Config) (st : MonitorState) (env : TickEnv)
    (st' : MonitorState) (h : (tick cfg st env).2 = some st') :
    (tick cfg st env).1.filter isSleep = [Event.sleepSeconds cfg.rate_limit] ∧
    (tick cfg st env).1.getLast? = some (Event.sleepSeconds cfg.rate_limit) := by
  rcases env with ⟨qr, hdue, hresp, aresp, nc⟩
  rcases qr with _ | d
  · by_cases hh : st.is_healthy = true
    · constructor <;> simp [tick, query_data, hh, isSleep, List.filter]
    · simp only [Bool.not_eq_true] at hh
      rcases aresp with _ | ⟨tok?, sid?⟩
      · simp [tick, query_data, authenticate, hh] at h
      · rcases tok? with _ | tok
        · simp [tick, query_data, authenticate, hh] at h
        · rcases sid? with _ | sid
          · simp [tick, query_data, authenticate, hh] at h
          · constructor <;> simp [tick, query_data, authenticate, hh, isSleep, List.filter]
  · have hp : ∀ e ∈ (process_data nc { st with queryCounter := st.queryCounter + 1 } d).2,
        isNotify e = true := process_data_events_notify _ _ _
    have hfp : (process_data nc { st with queryCounter := st.queryCounter + 1 } d).2.filter
        isSleep = [] := filter_isSleep_no_notify _ hp
    cases hdue
    · constructor
      · simp [tick, query_data, List.filter_append, hfp, isSleep, List.filter]
      · exact getLast?_cons_append3 _ _ _ _
    · constructor
      · simp [tick, query_data, List.filter_append, hfp, isSleep, List.filter,
          health_check_events]
      · exact getLast?_cons_append3 _ _ _ _

/-- Claim C8 witness: the failing tick from the fresh state still closes with the
configured 60-second sleep, and with no other sleep before it. -/
theorem c8_fixed_sleep_witness :
    (tick cfg0 initState envQueryFail).1.filter isSleep = [Event.sleepSeconds 60] ∧
    (tick cfg0 initState envQueryFail).1.getLast? = some (Event.sleepSeconds 60) :=
  c8_fixed_sleep cfg0 initState envQueryFail { initState with errorCounter := 1 } (by decide)

/-- Claim C9: an interrupt received during the inter-tick sleep exits the process
with code 0 (`handle_interrupt` calls `sys.exit(0)`), and the loop's shutdown path
closes the open session before the process exits; the shutdown trace is exactly the
session-close action, so no outbound call happens after shutdown begins. -/
theorem c9_interrupt_shutdown (st : MonitorState) (h : st.sessionOpen = true) :
    interruptExitCode = 0 ∧
    (shutdown st).1.sessionOpen = false ∧
    (shutdown st).2 = [Event.sessionClose] ∧
    (∀ e ∈ (shutdown st).2, isOutbound e = false) := by
  refine ⟨rfl, ?_, ?_, ?_⟩ <;> simp [shutdown, cleanup, h, isOutbound]

/-- Claim C9 witness: shutdown from a state with an open session. -/
theorem c9_interrupt_shutdown_witness :
    interruptExitCode = 0 ∧
    (shutdown { initState with sessionOpen := true }).1.sessionOpen = false ∧
    (shutdown { initState with sessionOpen := true }).2 = [Event.sessionClose] ∧
    (∀ e ∈ (shutdown { initState with sessionOpen := true }).2, isOutbound e = false) :=
  c9_interrupt_shutdown { initState with sessionOpen := true } rfl

/-- Claim C10: record processing always returns normally — every error inside
`process_data` is caught there — so a tick whose query succeeded continues the loop
and never makes an authenticator call, whatever the body looks like (missing `'body'`
key, zero totals, anything); and the state and events of processing are exactly those
of the prefix of records before the first failing one, the rest being silently
skipped. -/
theorem c10_processing_errors_contained (cfg : Config) (st : MonitorState) (env : TickEnv)
    (d : QueryData) (hq : env.queryResp = QueryResponse.success d) :
    (tick cfg st env).2.isSome = true ∧
    Event.authCall ∉ (tick cfg st env).1 ∧
    (∀ notify s items, d.body? = some items →
      (processItems notify s items).1 =
        (processItems notify s (items.takeWhile fun it => decide (itemTotal it ≠ 0))).1 ∧
      (processItems notify s items).2.1 =
        (processItems notify s (items.takeWhile fun it => decide (itemTotal it ≠ 0))).2.1) := by
  rcases env with ⟨qr, hdue, hresp, aresp, nc⟩
  simp only at hq
  subst hq
  refine ⟨?_, ?_, ?_⟩
  · cases hdue <;> simp [tick, query_data]
  · have hp : ∀ e ∈ (process_data nc { st with queryCounter := st.queryCounter + 1 } d).2,
        isNotify e = true := process_data_events_notify _ _ _
    cases hdue
    · exact authCall_not_mem_success_events _ _ hp (Or.inl rfl) _
    · exact authCall_not_mem_success_events _ _ hp (Or.inr (health_check_events _ _)) _
  · intro notify s items _
    exact ⟨processItems_state_front notify s items,
      processItems_events_front notify s items⟩

/-- Claim C10 witness: a tick whose query succeeds with a body holding a zero-total
record between two good ones continues the loop, makes no authenticator call, and
processes exactly the one-record prefix. -/
theorem c10_processing_errors_contained_witness :
    (tick cfg0 initState envOkBody).2.isSome = true ∧
    Event.authCall ∉ (tick cfg0 initState envOkBody).1 ∧
    ((processItems true initState [itemA, zeroTotalItem, itemA]).1 =
      (processItems true initState
        ([itemA, zeroTotalItem, itemA].takeWhile fun it => decide (itemTotal it ≠ 0))).1 ∧
     (processItems true initState [itemA, zeroTotalItem, itemA]).2.1 =
      (processItems true initState
        ([itemA, zeroTotalItem, itemA].takeWhile fun it => decide (itemTotal it ≠ 0))).2.1) :=
  ⟨(c10_processing_errors_contained cfg0 initState envOkBody dMix rfl).1,
   (c10_processing_errors_contained cfg0 initState envOkBody dMix rfl).2.1,
   (c10_processing_errors_contained cfg0 initState envOkBody dMix rfl).2.2 true initState
     [itemA, zeroTotalItem, itemA] rfl⟩

end Zwe
